import Mathlib

/-!
Verification of the landing-page client script (`src/landing/script.js`) and the
cloud-init provisioning shell script bundled with it.  The JavaScript event
handlers are embedded shallowly: each handler becomes a Lean function on an
explicit state, timers become explicit (delay, callback) data, and the browser
event loop is modelled by running the scheduled callbacks in order.
-/

set_option maxRecDepth 4096

namespace Landing

/-- A character that `encodeURIComponent` leaves unescaped:
ASCII letters, digits, and `- _ . ! ~ * ' ( )`. -/
def isUnreservedURIChar (c : Char) : Bool :=
  (c ≥ 'A' && c ≤ 'Z') || (c ≥ 'a' && c ≤ 'z') || (c ≥ '0' && c ≤ '9') ||
  c = '-' || c = '_' || c = '.' || c = '!' || c = '~' || c = '*' ||
  c.toNat = 39 || c = '(' || c = ')'

/-- Upper-case hexadecimal digit for a value below 16. -/
def hexDigit (n : Nat) : Char :=
  if n < 10 then Char.ofNat (48 + n) else Char.ofNat (65 + (n - 10))

/-- `%XY` percent-escape of one byte, upper-case hex. -/
def percentByte (b : Nat) : String :=
  String.mk ['%', hexDigit (b / 16 % 16), hexDigit (b % 16)]

/-- UTF-8 bytes of a Unicode scalar value. -/
def utf8Bytes (n : Nat) : List Nat :=
  if n < 128 then [n]
  else if n < 2048 then [192 + n / 64, 128 + n % 64]
  else if n < 65536 then [224 + n / 4096, 128 + n / 64 % 64, 128 + n % 64]
  else [240 + n / 262144, 128 + n / 4096 % 64, 128 + n / 64 % 64, 128 + n % 64]

/-- Modelled from the ECMAScript `encodeURIComponent` builtin used at the
redirect in the login submit handler: unreserved characters pass through,
every other character is replaced by the percent-escapes of its UTF-8 bytes. -/
def encodeURIComponent (s : String) : String :=
  String.join (s.data.map (fun c =>
    if isUnreservedURIChar c then String.singleton c
    else String.join ((utf8Bytes c.toNat).map percentByte)))

/-- An externally visible action performed by the client script:
a toast notification, a `localStorage.setItem`, or a `window.location.href`
assignment. -/
inductive Action where
  | notify (msg : String) (ntype : String)
  | storageSet (key : String) (val : String)
  | navigate (url : String)
deriving DecidableEq, Repr

/-- The fixed redirect target hard-coded in the login submit handler. -/
def redirectBase : String :=
  "http://alb-cloud25f-823380760.us-east-2.elb.amazonaws.com"

/-- The delay (ms) of each of the two UX-pacing timers in the login handler. -/
def loginPacingDelay : Nat := 500

/-- The validation check of the login submit handler: JavaScript `!id`, which
for a string is true exactly when the string is empty. -/
def loginValidationRejects (id : String) : Bool := id == ""

/-- The login submit handler of `script.js`, as the timestamped list of
externally visible actions it performs once its two chained timers have fired
(times in ms from the submit event).  An empty identifier yields only the
error notification and the handler returns; otherwise the handler shows an
info notification, and after the first timer a success notification and the
storage write, and after the nested second timer the redirect with the
identifier appended URL-encoded. -/
def loginSubmitTrace (id : String) : List (Nat × Action) :=
  if loginValidationRejects id then
    [(0, Action.notify "Por favor, preencha todos os campos." "error")]
  else
    [(0, Action.notify "Processando login..." "info"),
     (loginPacingDelay, Action.notify "Login realizado com sucesso! Redirecionando..." "success"),
     (loginPacingDelay, Action.storageSet "cloud25f-user-id" id),
     (loginPacingDelay + loginPacingDelay,
       Action.navigate (redirectBase ++ "?id=" ++ encodeURIComponent id))]

/-- Browser-visible state affected by the login handler: the `localStorage`
association list, the current location (if a navigation happened), and the
currently shown notification (the notification system keeps at most one). -/
structure PageState where
  storage : List (String × String)
  location : Option String
  lastNotif : Option (String × String)
deriving DecidableEq, Repr

/-- `localStorage.setItem`: overwrite the value under a key, or append it. -/
def storeSet (k v : String) : List (String × String) → List (String × String)
  | [] => [(k, v)]
  | (k0, v0) :: rest => if k0 = k then (k, v) :: rest else (k0, v0) :: storeSet k v rest

/-- `localStorage.getItem`: first value stored under a key. -/
def storeGet (k : String) : List (String × String) → Option String
  | [] => none
  | (k0, v0) :: rest => if k0 = k then some v0 else storeGet k rest

/-- Effect of one action on the browser-visible state. -/
def applyAction (st : PageState) : Action → PageState
  | Action.notify m t => { st with lastNotif := some (m, t) }
  | Action.storageSet k v => { st with storage := storeSet k v st.storage }
  | Action.navigate u => { st with location := some u }

/-- Run a list of actions in order. -/
def runActions (st : PageState) (as : List Action) : PageState :=
  as.foldl applyAction st

/-- Submitting the login form with identifier `id`, run to completion
(both pacing timers fired, in event-loop order). -/
def submitLogin (id : String) (st : PageState) : PageState :=
  runActions st ((loginSubmitTrace id).map Prod.snd)

/-- `classList.add('visible')` on a single tracked class, as a boolean. -/
def classAdd (_ : Bool) : Bool := true

/-- `classList.remove(c)` on a single tracked class, as a boolean. -/
def classRemove (_ : Bool) : Bool := false

/-- `classList.toggle(c)` on a single tracked class, as a boolean. -/
def classToggle (b : Bool) : Bool := !b

/-- A DOM element relevant to the notification system: its identity (for the
`parentElement` check of the auto-dismiss timer), its class list, its message
text and its `style.animation` value. -/
structure Node where
  nid : Nat
  classes : List String
  msg : String
  anim : String
deriving DecidableEq, Repr

/-- The children of `document.body` that the notification system can touch,
plus a counter supplying fresh element identities. -/
structure Doc where
  nodes : List Node
  nextId : Nat
deriving DecidableEq, Repr

def emptyDoc : Doc := { nodes := [], nextId := 0 }

/-- Whether an element matches the selector `.notification`. -/
def isNotification (n : Node) : Bool := n.classes.contains "notification"

/-- Whether the element with identity `nid` is still attached to the document
(the JavaScript `notification.parentElement` check). -/
def attachedB (nid : Nat) (d : Doc) : Bool := d.nodes.any (fun n => n.nid == nid)

/-- The auto-dismiss delay (ms) of the notification system. -/
def notifAutoDismissDelay : Nat := 5000

/-- The delay (ms) of the nested removal-animation timer of the notification
system. -/
def notifAnimRemoveDelay : Nat := 300

/-- The notification element `showNotification` creates. -/
def mkNotifNode (msg ntype : String) (nid : Nat) : Node :=
  { nid := nid, classes := ["notification", "notification-" ++ ntype],
    msg := msg, anim := "slideIn 0.3s ease-out" }

/-- `showNotification(message, type)`: remove every element matching
`.notification`, append a freshly created notification element, and schedule
the auto-dismiss timer for it.  Returns the new document, the identity of the
new element, and the scheduled (delay, element) timers. -/
def showNotification (msg ntype : String) (d : Doc) : Doc × Nat × List (Nat × Nat) :=
  let remaining := d.nodes.filter (fun n => !isNotification n)
  let node := mkNotifNode msg ntype d.nextId
  ({ nodes := remaining ++ [node], nextId := d.nextId + 1 },
   d.nextId,
   [(notifAutoDismissDelay, d.nextId)])

/-- The callback of the auto-dismiss timer: if the notification element is
still attached, set its reverse slide-out animation and schedule the nested
removal timer; otherwise do nothing.  Returns the document and the scheduled
(delay, element) timers. -/
def autoRemoveCallback (nid : Nat) (d : Doc) : Doc × List (Nat × Nat) :=
  if attachedB nid d then
    ({ d with nodes := d.nodes.map (fun n =>
        if n.nid = nid then { n with anim := "slideIn 0.3s ease-out reverse" } else n) },
     [(notifAnimRemoveDelay, nid)])
  else (d, [])

/-- The callback of the nested removal timer: `notification.remove()`. -/
def removeNodeCallback (nid : Nat) (d : Doc) : Doc :=
  { d with nodes := d.nodes.filter (fun n => n.nid != nid) }

/-- Mobile-navigation state: whether `nav-menu` and `hamburger` carry the
`active` class. -/
structure MenuState where
  navMenuActive : Bool
  hamburgerActive : Bool
deriving DecidableEq, Repr

/-- The original hidden state: no `active` class on the menu or hamburger. -/
def menuHidden : MenuState := { navMenuActive := false, hamburgerActive := false }

/-- The hamburger click handler: toggle `active` on both elements. -/
def hamburgerClick (s : MenuState) : MenuState :=
  { navMenuActive := classToggle s.navMenuActive,
    hamburgerActive := classToggle s.hamburgerActive }

/-- The scroll offset threshold (px) of the scroll-to-top button. -/
def scrollTopThreshold : Nat := 300

/-- The lazily created scroll-to-top button: `none` before the first scroll
event, `some v` with `v` the presence of its `visible` class afterwards.
`createScrollToTopButton` creates it without the `visible` class. -/
def ensureScrollTopButton (btn : Option Bool) : Bool := btn.getD false

/-- The scroll listener for the scroll-to-top button: create the button if it
does not exist yet, then add `visible` when `window.scrollY > 300` and remove
it otherwise. -/
def scrollTopHandler (scrollY : Nat) (btn : Option Bool) : Option Bool :=
  let ensured := ensureScrollTopButton btn
  if scrollY > scrollTopThreshold then some (classAdd ensured)
  else some (classRemove ensured)

/-- The wait (ms) passed to `debounce` for the debounced scroll handler. -/
def debouncedScrollWait : Nat := 10

/-- One call of the function returned by `debounce(func, wait)`: cancel the
pending timer, if any, and schedule a fresh one with the given wait.  Returns
the new pending timer, the list of cancelled timer identities, and the
scheduled (delay, identity) timers. -/
def debounceCall (wait : Nat) (fresh : Nat) (pending : Option Nat) :
    Option Nat × List Nat × List (Nat × Nat) :=
  (some fresh, pending.toList, [(wait, fresh)])

/-- The `setTimeout` call sites of `script.js` with their fixed delays:
the two login-pacing timers, the notification auto-dismiss timer and its
nested removal-animation timer, and the debounced scroll timer. -/
def scriptTimerSites : List (String × Nat) :=
  [("login-success-pacing-outer", loginPacingDelay),
   ("login-success-pacing-inner", loginPacingDelay),
   ("notification-auto-dismiss", notifAutoDismissDelay),
   ("notification-remove-animation", notifAnimRemoveDelay),
   ("scroll-debounce", debouncedScrollWait)]

/-- A command of the provisioning shell script, in source order.  The
`command -v yum` / `command -v apt-get` tests guard the install branch and are
modelled as the booleans of `provisionCmds`. -/
inductive ShCmd where
  | yumUpdate
  | yumInstallDeps
  | aptUpdate
  | aptInstallDeps
  | mkdirApp
  | chownApp
  | writeAppPy
  | writeRequirements
  | createVenv
  | pipUpgrade
  | pipInstallReqs
  | writeServiceUnit
  | daemonReload
  | enableService
  | startService
deriving DecidableEq, Repr

/-- The fixed command sequence of the provisioning shell script, given which
package manager the `command -v` tests find. -/
def provisionCmds (hasYum hasApt : Bool) : List ShCmd :=
  (if hasYum then [ShCmd.yumUpdate, ShCmd.yumInstallDeps]
   else if hasApt then [ShCmd.aptUpdate, ShCmd.aptInstallDeps]
   else [])
  ++ [ShCmd.mkdirApp, ShCmd.chownApp, ShCmd.writeAppPy, ShCmd.writeRequirements,
      ShCmd.createVenv, ShCmd.pipUpgrade, ShCmd.pipInstallReqs,
      ShCmd.writeServiceUnit, ShCmd.daemonReload, ShCmd.enableService,
      ShCmd.startService]

/-- Sequential execution under `set -e`: run the commands in order, stopping
at the first one whose exit status (per the oracle `ok`) is non-zero.
Returns the list of commands that actually ran and whether the script
finished successfully. -/
def runErrexit (ok : ShCmd → Bool) : List ShCmd → List ShCmd × Bool
  | [] => ([], true)
  | c :: rest =>
    if ok c then
      let r := runErrexit ok rest
      (c :: r.1, r.2)
    else ([c], false)

theorem storeGet_storeSet (k v : String) (s : List (String × String)) :
    storeGet k (storeSet k v s) = some v := by
  induction s with
  | nil => simp [storeSet, storeGet]
  | cons hd tl ih =>
    by_cases h : hd.1 = k
    · simp [storeSet, storeGet, h]
    · simp [storeSet, storeGet, h, ih]

theorem filter_not_filter (p : Node → Bool) (l : List Node) :
    (l.filter (fun a => !p a)).filter p = [] := by
  induction l with
  | nil => rfl
  | cons hd tl ih =>
    by_cases h : p hd = true
    · simp [h, ih]
    · simp only [Bool.not_eq_true] at h
      simp [h, ih]

theorem attachedB_removeNode (nid : Nat) (d : Doc) :
    attachedB nid (removeNodeCallback nid d) = false := by
  unfold attachedB removeNodeCallback
  induction d.nodes with
  | nil => rfl
  | cons hd tl ih =>
    by_cases h : hd.nid = nid
    · simp [h, ih]
    · simp [h, ih]

theorem runErrexit_halts_at_failure (ok : ShCmd → Bool) (pre : List ShCmd)
    (c : ShCmd) (post : List ShCmd)
    (hpre : ∀ p ∈ pre, ok p = true) (hc : ok c = false) :
    runErrexit ok (pre ++ c :: post) = (pre ++ [c], false) := by
  induction pre with
  | nil => simp [runErrexit, hc]
  | cons hd tl ih =>
    have hhd : ok hd = true := hpre hd (by simp)
    have ih2 := ih (fun p hp => hpre p (by simp [hp]))
    simp [runErrexit, hhd, ih2]

/-- C1: submitting the login form with a non-empty identifier eventually
writes that exact string under the single storage key `cloud25f-user-id` and
then navigates to the fixed URL with the identifier appended as the `id`
query-string parameter, URL-encoded via `encodeURIComponent`; the storage
write precedes the navigation in the handler's action trace. -/
theorem loginSubmit_nonempty_stores_then_redirects (id : String) (st : PageState)
    (h : id ≠ "") :
    storeGet "cloud25f-user-id" (submitLogin id st).storage = some id ∧
    (submitLogin id st).location =
      some (redirectBase ++ "?id=" ++ encodeURIComponent id) ∧
    List.Sublist
      [Action.storageSet "cloud25f-user-id" id,
       Action.navigate (redirectBase ++ "?id=" ++ encodeURIComponent id)]
      ((loginSubmitTrace id).map Prod.snd) := by
  have hr : loginValidationRejects id = false := by
    simp [loginValidationRejects, h]
  refine ⟨?_, ?_, ?_⟩
  · simp [submitLogin, runActions, loginSubmitTrace, hr, applyAction, storeGet_storeSet]
  · simp [submitLogin, runActions, loginSubmitTrace, hr, applyAction]
  · simp only [loginSubmitTrace, hr, Bool.false_eq_true, if_false, List.map]
    exact ((List.Sublist.refl _).cons _).cons _

/-- Witness for C1 at the concrete identifier `abc` and empty page state. -/
theorem loginSubmit_nonempty_stores_then_redirects_witness :
    "abc" ≠ "" ∧
    (storeGet "cloud25f-user-id"
        (submitLogin "abc" { storage := [], location := none, lastNotif := none }).storage
        = some "abc" ∧
     (submitLogin "abc" { storage := [], location := none, lastNotif := none }).location =
       some (redirectBase ++ "?id=" ++ encodeURIComponent "abc") ∧
     List.Sublist
       [Action.storageSet "cloud25f-user-id" "abc",
        Action.navigate (redirectBase ++ "?id=" ++ encodeURIComponent "abc")]
       ((loginSubmitTrace "abc").map Prod.snd)) :=
  ⟨by decide,
   loginSubmit_nonempty_stores_then_redirects "abc"
     { storage := [], location := none, lastNotif := none } (by decide)⟩

/-- C2: submitting the login form with an empty identifier shows the error
notification, writes nothing to storage, does not navigate, and the handler
performs nothing further after the validation failure. -/
theorem loginSubmit_empty_error_no_write_no_redirect (st : PageState) :
    (submitLogin "" st).storage = st.storage ∧
    (submitLogin "" st).location = st.location ∧
    (submitLogin "" st).lastNotif =
      some ("Por favor, preencha todos os campos.", "error") ∧
    loginSubmitTrace "" =
      [(0, Action.notify "Por favor, preencha todos os campos." "error")] := by
  refine ⟨?_, ?_, ?_, rfl⟩ <;>
    simp [submitLogin, runActions, loginSubmitTrace, loginValidationRejects, applyAction]

/-- C3: `showNotification` first removes every existing `.notification`
element and then appends the new one, so afterwards the document holds
exactly one notification element — the new one. -/
theorem showNotification_at_most_one (m t : String) (d : Doc) :
    (showNotification m t d).1.nodes.filter isNotification =
      [mkNotifNode m t d.nextId] ∧
    List.countP isNotification (showNotification m t d).1.nodes = 1 := by
  have hnew : isNotification (mkNotifNode m t d.nextId) = true := by
    simp [isNotification, mkNotifNode]
  have hfilter : (showNotification m t d).1.nodes.filter isNotification =
      [mkNotifNode m t d.nextId] := by
    simp [showNotification, List.filter_append, filter_not_filter, hnew]
  refine ⟨hfilter, ?_⟩
  rw [List.countP_eq_length_filter, hfilter]
  rfl

/-- C4: the auto-dismiss timer that `showNotification` schedules for the new
element has the fixed five-second delay, and when it fires while the element
is still attached, its callback (reverse animation, then the nested removal
timer) leaves the element detached from the document. -/
theorem notification_auto_removes_after_delay (d : Doc) (nid : Nat)
    (h : attachedB nid d = true) :
    notifAutoDismissDelay = 5000 ∧
    (∀ m t d0, (showNotification m t d0).2.2 = [(notifAutoDismissDelay, d0.nextId)]) ∧
    (autoRemoveCallback nid d).2 = [(notifAnimRemoveDelay, nid)] ∧
    attachedB nid (removeNodeCallback nid (autoRemoveCallback nid d).1) = false := by
  refine ⟨rfl, fun m t d0 => rfl, ?_, ?_⟩
  · simp [autoRemoveCallback, h]
  · exact attachedB_removeNode nid (autoRemoveCallback nid d).1

/-- Witness for C4 on a document holding one attached notification. -/
theorem notification_auto_removes_after_delay_witness :
    attachedB 0 { nodes := [mkNotifNode "x" "info" 0], nextId := 1 } = true ∧
    (notifAutoDismissDelay = 5000 ∧
     (∀ m t d0, (showNotification m t d0).2.2 = [(notifAutoDismissDelay, d0.nextId)]) ∧
     (autoRemoveCallback 0 { nodes := [mkNotifNode "x" "info" 0], nextId := 1 }).2 =
       [(notifAnimRemoveDelay, 0)] ∧
     attachedB 0 (removeNodeCallback 0
       (autoRemoveCallback 0 { nodes := [mkNotifNode "x" "info" 0], nextId := 1 }).1) = false) :=
  ⟨by decide,
   notification_auto_removes_after_delay
     { nodes := [mkNotifNode "x" "info" 0], nextId := 1 } 0 (by decide)⟩

/-- C5: after the scroll listener runs, the scroll-to-top button carries the
`visible` class exactly when the scroll offset exceeds the 300px threshold,
and is hidden whenever the offset is at or below it. -/
theorem scrollTop_visible_iff_past_threshold (y : Nat) (btn : Option Bool) :
    scrollTopThreshold = 300 ∧
    (scrollTopHandler y btn = some true ↔ y > scrollTopThreshold) ∧
    (scrollTopHandler y btn = some false ↔ y ≤ scrollTopThreshold) := by
  refine ⟨rfl, ?_, ?_⟩ <;>
    by_cases h : y > scrollTopThreshold <;>
      simp [scrollTopHandler, classAdd, classRemove, ensureScrollTopButton, h] <;>
      omega

/-- C6: from the original hidden state, clicking the hamburger twice returns
the menu and hamburger to that state; the toggle is an involution. -/
theorem hamburger_toggle_involution :
    hamburgerClick (hamburgerClick menuHidden) = menuHidden ∧
    ∀ s : MenuState, hamburgerClick (hamburgerClick s) = s := by
  refine ⟨rfl, ?_⟩
  intro s
  cases s
  simp [hamburgerClick, classToggle]

/-- C7 counterexample: the script schedules asynchronous timers outside the
two login-pacing ones — already `showNotification` itself schedules a 5000ms
auto-dismiss timer — so the timer sites are not only the login-pacing pair. -/
theorem timers_not_only_login_pacing :
    (showNotification "Processando login..." "info" emptyDoc).2.2 = [(5000, 0)] ∧
    ("notification-auto-dismiss", 5000) ∈ scriptTimerSites ∧
    ¬ (∀ s ∈ scriptTimerSites,
        s.1 = "login-success-pacing-outer" ∨ s.1 = "login-success-pacing-inner") := by
  refine ⟨rfl, by decide, by decide⟩

/-- C7 (amended): the asynchronous delays of the client script are five fixed
timers — the two 500ms login-pacing timers, the 5000ms notification
auto-dismiss timer, its nested 300ms removal-animation timer, and the 10ms
debounced-scroll timer. -/
theorem script_timer_delays (id : String) (h : id ≠ "")
    (m t : String) (d : Doc) (nid : Nat) (d2 : Doc) (h2 : attachedB nid d2 = true)
    (f : Nat) (p : Option Nat) :
    (loginSubmitTrace id).map Prod.fst =
      [0, loginPacingDelay, loginPacingDelay, loginPacingDelay + loginPacingDelay] ∧
    (showNotification m t d).2.2.map Prod.fst = [notifAutoDismissDelay] ∧
    (autoRemoveCallback nid d2).2.map Prod.fst = [notifAnimRemoveDelay] ∧
    (debounceCall debouncedScrollWait f p).2.2.map Prod.fst = [debouncedScrollWait] ∧
    scriptTimerSites.map Prod.snd = [500, 500, 5000, 300, 10] := by
  have hr : loginValidationRejects id = false := by
    simp [loginValidationRejects, h]
  refine ⟨by simp [loginSubmitTrace, hr], rfl, ?_, rfl, rfl⟩
  simp [autoRemoveCallback, h2]

/-- Witness for the amended C7 at concrete inputs. -/
theorem script_timer_delays_witness :
    ("abc" ≠ "" ∧
     attachedB 0 { nodes := [mkNotifNode "x" "info" 0], nextId := 1 } = true) ∧
    ((loginSubmitTrace "abc").map Prod.fst =
       [0, loginPacingDelay, loginPacingDelay, loginPacingDelay + loginPacingDelay] ∧
     (showNotification "x" "info" emptyDoc).2.2.map Prod.fst = [notifAutoDismissDelay] ∧
     (autoRemoveCallback 0 { nodes := [mkNotifNode "x" "info" 0], nextId := 1 }).2.map Prod.fst =
       [notifAnimRemoveDelay] ∧
     (debounceCall debouncedScrollWait 0 none).2.2.map Prod.fst = [debouncedScrollWait] ∧
     scriptTimerSites.map Prod.snd = [500, 500, 5000, 300, 10]) :=
  ⟨⟨by decide, by decide⟩,
   script_timer_delays "abc" (by decide) "x" "info" emptyDoc 0
     { nodes := [mkNotifNode "x" "info" 0], nextId := 1 } (by decide) 0 none⟩

/-- C8: under `set -euo pipefail`, the provisioning script runs its commands
strictly in order and the first command with a non-zero exit terminates it
immediately: the executed trace is exactly the successful prefix plus the
failing command, nothing after it runs (no cleanup, rollback or retry), and
the command list holds no duplicates, so no command ever runs twice. -/
theorem provision_failfast (hasYum hasApt : Bool) (ok : ShCmd → Bool)
    (pre post : List ShCmd) (c : ShCmd)
    (hsplit : provisionCmds hasYum hasApt = pre ++ c :: post)
    (hpre : ∀ p ∈ pre, ok p = true) (hc : ok c = false) :
    runErrexit ok (provisionCmds hasYum hasApt) = (pre ++ [c], false) ∧
    (provisionCmds hasYum hasApt).Nodup := by
  constructor
  · rw [hsplit]
    exact runErrexit_halts_at_failure ok pre c post hpre hc
  · cases hasYum <;> cases hasApt <;> decide

/-- Witness for C8: `python3 -m venv` fails on a yum-based host, so the run
stops right there. -/
theorem provision_failfast_witness :
    (provisionCmds true false =
       [ShCmd.yumUpdate, ShCmd.yumInstallDeps, ShCmd.mkdirApp, ShCmd.chownApp,
        ShCmd.writeAppPy, ShCmd.writeRequirements] ++ ShCmd.createVenv ::
       [ShCmd.pipUpgrade, ShCmd.pipInstallReqs, ShCmd.writeServiceUnit,
        ShCmd.daemonReload, ShCmd.enableService, ShCmd.startService] ∧
     (∀ p ∈ [ShCmd.yumUpdate, ShCmd.yumInstallDeps, ShCmd.mkdirApp, ShCmd.chownApp,
              ShCmd.writeAppPy, ShCmd.writeRequirements],
        (fun x => !(x == ShCmd.createVenv)) p = true) ∧
     (fun x => !(x == ShCmd.createVenv)) ShCmd.createVenv = false) ∧
    (runErrexit (fun x => !(x == ShCmd.createVenv)) (provisionCmds true false) =
       ([ShCmd.yumUpdate, ShCmd.yumInstallDeps, ShCmd.mkdirApp, ShCmd.chownApp,
         ShCmd.writeAppPy, ShCmd.writeRequirements] ++ [ShCmd.createVenv], false) ∧
     (provisionCmds true false).Nodup) :=
  ⟨⟨by decide, by decide, by decide⟩,
   provision_failfast true false (fun x => !(x == ShCmd.createVenv))
     [ShCmd.yumUpdate, ShCmd.yumInstallDeps, ShCmd.mkdirApp, ShCmd.chownApp,
      ShCmd.writeAppPy, ShCmd.writeRequirements]
     [ShCmd.pipUpgrade, ShCmd.pipInstallReqs, ShCmd.writeServiceUnit,
      ShCmd.daemonReload, ShCmd.enableService, ShCmd.startService]
     ShCmd.createVenv (by decide) (by decide) (by decide)⟩

/-- C9: the login validation rejects only the empty string, so a whitespace
identifier is accepted: it is written to storage as entered and used,
URL-encoded, in the redirect. -/
theorem whitespace_id_accepted (id : String) (st : PageState)
    (h : id ≠ "") (hw : ∀ c ∈ id.data, c.isWhitespace = true) :
    loginValidationRejects id = false ∧
    (∀ s : String, loginValidationRejects s = true ↔ s = "") ∧
    storeGet "cloud25f-user-id" (submitLogin id st).storage = some id ∧
    (submitLogin id st).location =
      some (redirectBase ++ "?id=" ++ encodeURIComponent id) := by
  have hr : loginValidationRejects id = false := by
    simp [loginValidationRejects, h]
  refine ⟨hr, ?_, ?_, ?_⟩
  · intro s
    simp [loginValidationRejects]
  · simp [submitLogin, runActions, loginSubmitTrace, hr, applyAction, storeGet_storeSet]
  · simp [submitLogin, runActions, loginSubmitTrace, hr, applyAction]

/-- Witness for C9 at the single-space identifier, whose encoding is `%20`. -/
theorem whitespace_id_accepted_witness :
    (" " ≠ "" ∧ ∀ c ∈ (" " : String).data, c.isWhitespace = true) ∧
    (loginValidationRejects " " = false ∧
     (∀ s : String, loginValidationRejects s = true ↔ s = "") ∧
     storeGet "cloud25f-user-id"
       (submitLogin " " { storage := [], location := none, lastNotif := none }).storage
       = some " " ∧
     (submitLogin " " { storage := [], location := none, lastNotif := none }).location =
       some (redirectBase ++ "?id=" ++ encodeURIComponent " ")) ∧
    encodeURIComponent " " = "%20" :=
  ⟨⟨by decide, by decide⟩,
   whitespace_id_accepted " " { storage := [], location := none, lastNotif := none }
     (by decide) (by decide),
   rfl⟩

/-- C10: the auto-dismiss callback is guarded by the `parentElement` check:
if the notification was already removed when the timer fires, the callback
changes nothing and schedules nothing. -/
theorem autoRemove_noop_when_detached (d : Doc) (nid : Nat)
    (h : attachedB nid d = false) :
    autoRemoveCallback nid d = (d, []) := by
  simp [autoRemoveCallback, h]

/-- Witness for C10 on the empty document. -/
theorem autoRemove_noop_when_detached_witness :
    attachedB 0 emptyDoc = false ∧ autoRemoveCallback 0 emptyDoc = (emptyDoc, []) :=
  ⟨by decide, autoRemove_noop_when_detached emptyDoc 0 (by decide)⟩

end Landing
